import Mathlib

/-!
Shallow embedding of `src/thqueue.hpp`: a bounded, thread-safe FIFO queue
(`thqueue<T, Container>`).  The mutable state guarded by the mutex is the
pair (`m_capacity`, `m_queue`); we embed it as a structure over `List α`,
with the head of the list as the front of the queue.

`size_type` in the source is `std::size_t`; we model its values as `Nat`
and make wrap-around explicit with `% W` (with `W = 2^64`) exactly where
the source performs unsigned arithmetic that can wrap, namely the
expression `m_capacity - 1` in the not-full wake-up test of the removal
operations.

Each mutating operation also has two observable notification effects in
the source (`m_notEmptyCond.notify_one()` and `m_notFullCond.notify_one()`);
we record whether each was signalled as a pair of `Bool`s in the result of
every mutating operation.  Blocking operations (`put`, both forms of `get`)
return `Option`: `none` models the call suspending on its condition
variable (in a sequential trace the predicate can never become true, so the
call blocks); `some` is the non-blocking completion.
-/

/-- Width of the unsigned `size_type` used by the source (`std::size_t`). -/
def W : Nat := 2 ^ 64

/-- State of `thqueue<T>`: the capacity field and the FIFO container
(`std::queue`, front of the queue = head of the list). -/
structure thqueue (α : Type) where
  m_capacity : Nat
  m_queue : List α
deriving DecidableEq

namespace thqueue

variable {α : Type}

/-- Source constant `MAX_CAPACITY = std::numeric_limits<size_type>::max()`. -/
def MAX_CAPACITY : Nat := W - 1

/-- Default constructor `thqueue() : m_capacity(MAX_CAPACITY)`. -/
def mk_default : thqueue α := ⟨MAX_CAPACITY, []⟩

/-- Constructor `thqueue(size_t cap) : m_capacity(std::max<size_type>(cap, 1))`. -/
def mk_cap (cap : Nat) : thqueue α := ⟨max cap 1, []⟩

/-- `empty()`: whether the container is empty. -/
def empty (q : thqueue α) : Bool := q.m_queue.isEmpty

/-- `capacity()` getter. -/
def capacity (q : thqueue α) : Nat := q.m_capacity

/-- `size()`: the container size. -/
def size (q : thqueue α) : Nat := q.m_queue.length

/-- Setter `capacity(size_type cap)`: `m_capacity = cap`, nothing else.
The two `Bool`s record the notifications performed (the source performs
none, so both are `false`). -/
def set_capacity (q : thqueue α) (cap : Nat) : thqueue α × Bool × Bool :=
  ({ q with m_capacity := cap }, false, false)

/-- Blocking `put(value_type val)`.  If `size >= capacity` the caller waits
on `m_notFullCond`, which in a sequential trace never completes: `none`.
Otherwise the value is enqueued and, when the queue was empty just before
the insert, `m_notEmptyCond.notify_one()` fires (first `Bool`). -/
def put (q : thqueue α) (val : α) : Option (thqueue α × Bool × Bool) :=
  if q.m_queue.length ≥ q.m_capacity then none
  else
    let wasEmpty := q.m_queue.isEmpty
    some ({ q with m_queue := q.m_queue ++ [val] }, wasEmpty, false)

/-- Non-blocking `try_put(value_type val)`.  Result is
(return value, new state, notified not-empty, notified not-full). -/
def try_put (q : thqueue α) (val : α) : Bool × thqueue α × Bool × Bool :=
  let n := q.m_queue.length
  if n ≥ q.m_capacity then (false, q, false, false)
  else (true, { q with m_queue := q.m_queue ++ [val] }, n == 0, false)

/-- Call-site ownership of `q.try_put(std::move(x))`.  The source
signature is `bool try_put(value_type val)`: the argument is taken by
value, so for a move-only `T` the caller's object is moved into the
parameter when the call is made, on both branches, and the parameter is
destroyed when the call returns.  The third component records what the
caller still holds after the call: `none` on both branches (on success
the value moved on into the queue, on failure it was destroyed together
with the parameter). -/
def try_put_call (q : thqueue α) (x : α) :
    Bool × thqueue α × Option α × Bool × Bool :=
  let r := try_put q x
  (r.1, r.2.1, none, r.2.2.1, r.2.2.2)

/-- Wake-up test after a removal: `m_queue.size() == m_capacity - 1`
with the subtraction performed in unsigned `size_type` arithmetic
(so the test is taken modulo `W`). -/
def notFullAfterPop (cap newLen : Nat) : Bool :=
  newLen % W == (cap + (W - 1)) % W

/-- Blocking `get()` (return-value form).  On an empty queue the caller
waits on `m_notEmptyCond` (`none` in a sequential trace).  Otherwise the
head is removed; result is (removed value, new state, notified not-empty,
notified not-full). -/
def get (q : thqueue α) : Option (α × thqueue α × Bool × Bool) :=
  match q.m_queue with
  | [] => none
  | v :: rest =>
    some (v, { q with m_queue := rest }, false, notFullAfterPop q.m_capacity rest.length)

/-- Blocking `get(value_type* val)` (pointer-output form).  `slot` is the
value currently held by the caller's output object; the first component of
the result is the value the slot holds after `*val = std::move(front)`. -/
def get_ptr (q : thqueue α) (slot : α) : Option (α × thqueue α × Bool × Bool) :=
  match q.m_queue with
  | [] => none
  | v :: rest =>
    some (v, { q with m_queue := rest }, false, notFullAfterPop q.m_capacity rest.length)

/-- Non-blocking `try_get(value_type* val)`.  Result is
(return value, slot contents after the call, new state, notified
not-empty, notified not-full); on an empty queue the slot is untouched. -/
def try_get (q : thqueue α) (slot : α) : Bool × α × thqueue α × Bool × Bool :=
  match q.m_queue with
  | [] => (false, slot, q, false, false)
  | v :: rest =>
    (true, v, { q with m_queue := rest }, false, notFullAfterPop q.m_capacity rest.length)

/-- One public operation of the queue, for reachability statements. -/
inductive Op (α : Type) where
  | opPut (v : α)
  | opTryPut (v : α)
  | opGetRet
  | opGetPtr (slot : α)
  | opTryGet (slot : α)
  | opSetCap (n : Nat)
deriving DecidableEq

/-- State reached after one public operation.  A blocking call whose
predicate cannot be satisfied leaves the state unchanged (the caller is
parked on its condition variable and has mutated nothing). -/
def applyOp (q : thqueue α) : Op α → thqueue α
  | .opPut v =>
    match put q v with
    | some (q1, _, _) => q1
    | none => q
  | .opTryPut v => (try_put q v).2.1
  | .opGetRet =>
    match get q with
    | some (_, q1, _, _) => q1
    | none => q
  | .opGetPtr s =>
    match get_ptr q s with
    | some (_, q1, _, _) => q1
    | none => q
  | .opTryGet s => (try_get q s).2.2.1
  | .opSetCap n => (set_capacity q n).1

/-- State after a sequence of public operations. -/
def run (q : thqueue α) : List (Op α) → thqueue α
  | [] => q
  | op :: ops => run (applyOp q op) ops

/-- The state is one produced by a constructor of the source class. -/
def fromCtor (q : thqueue α) : Prop :=
  q = mk_default ∨ ∃ c, q = mk_cap c

/-- Every `setCapacity` call in the trace requests a capacity at least as
large as the queue's size at the moment of the call. -/
def sizeSafe (q : thqueue α) : List (Op α) → Bool
  | [] => true
  | op :: ops =>
    (match op with
     | .opSetCap n => decide (q.m_queue.length ≤ n)
     | _ => true) && sizeSafe (applyOp q op) ops

/-- Every `setCapacity` call in the trace requests a capacity of at least 1. -/
def capSafe : List (Op α) → Bool
  | [] => true
  | op :: ops =>
    (match op with
     | Op.opSetCap n => decide (1 ≤ n)
     | _ => true) && capSafe ops

end thqueue

/-! Claim theorems. -/

/-- C2: on a queue of capacity 2, the sequential trace
`put "a"; put "b"; try_put "c"; get; try_put "c"; get; get` yields
`try_put "c" = false`, `get = "a"`, `try_put "c" = true`, `get = "b"`,
`get = "c"`, and no call blocks (every blocking call returns `some`). -/
theorem c2_capacity_two_trace :
    thqueue.put (thqueue.mk_cap 2 : thqueue String) "a" =
      some (⟨2, ["a"]⟩, true, false) ∧
    thqueue.put (⟨2, ["a"]⟩ : thqueue String) "b" =
      some (⟨2, ["a", "b"]⟩, false, false) ∧
    thqueue.try_put (⟨2, ["a", "b"]⟩ : thqueue String) "c" =
      (false, ⟨2, ["a", "b"]⟩, false, false) ∧
    thqueue.get (⟨2, ["a", "b"]⟩ : thqueue String) =
      some ("a", ⟨2, ["b"]⟩, false, true) ∧
    thqueue.try_put (⟨2, ["b"]⟩ : thqueue String) "c" =
      (true, ⟨2, ["b", "c"]⟩, false, false) ∧
    thqueue.get (⟨2, ["b", "c"]⟩ : thqueue String) =
      some ("b", ⟨2, ["c"]⟩, false, true) ∧
    thqueue.get (⟨2, ["c"]⟩ : thqueue String) =
      some ("c", ⟨2, []⟩, false, false) := by
  decide

/-- C3 counterexample: the ownership clause of the claim is false of the
source.  On the full queue `⟨1, [0]⟩`, a `try_put 5` call made by moving
the value in returns `false` and leaves the queue unchanged (so 5 never
entered the queue), yet the caller does not still hold the value
afterwards: the by-value parameter consumed it and it is destroyed with
the parameter on the `false` path — the value is simply lost. -/
theorem c3_try_put_full_ownership_cex :
    (thqueue.try_put_call (⟨1, [0]⟩ : thqueue Nat) 5).1 = false ∧
    (thqueue.try_put_call (⟨1, [0]⟩ : thqueue Nat) 5).2.1 = ⟨1, [0]⟩ ∧
    (thqueue.try_put_call (⟨1, [0]⟩ : thqueue Nat) 5).2.2.1 = none := by
  decide

/-- C3 amended: on a queue whose size is at least its capacity, `try_put v`
returns `false` immediately, leaves the queue unchanged and performs no
notification; but because the argument is taken by value, a moved-in
value is consumed by the failed call itself: after the call the caller
holds nothing, rather than still holding the value. -/
theorem c3_try_put_full_rejects_amended {α : Type} (q : thqueue α) (v : α)
    (h : q.size ≥ q.capacity) :
    thqueue.try_put_call q v = (false, q, none, false, false) := by
  simp only [thqueue.size, thqueue.capacity] at h
  unfold thqueue.try_put_call thqueue.try_put
  simp [h]

/-- C3 witness: the amended statement at a concrete full queue. -/
theorem c3_try_put_full_rejects_amended_witness :
    thqueue.try_put_call (⟨1, [0]⟩ : thqueue Nat) 7 =
      (false, ⟨1, [0]⟩, none, false, false) :=
  c3_try_put_full_rejects_amended _ _ (by decide)

/-- C4: on an empty queue, `try_get` returns `false`, leaves the output
slot and the queue unchanged, performs no notification, and the size
afterwards is 0. -/
theorem c4_try_get_empty_rejects {α : Type} (q : thqueue α) (slot : α)
    (h : q.m_queue = []) :
    thqueue.try_get q slot = (false, slot, q, false, false) ∧
    (thqueue.try_get q slot).2.2.1.size = 0 := by
  obtain ⟨cap, items⟩ := q
  simp only at h
  subst h
  exact ⟨rfl, rfl⟩

/-- C4 witness at a concrete empty queue and slot. -/
theorem c4_try_get_empty_rejects_witness :
    thqueue.try_get (⟨3, []⟩ : thqueue Nat) 7 = (false, 7, ⟨3, []⟩, false, false) ∧
    (thqueue.try_get (⟨3, []⟩ : thqueue Nat) 7).2.2.1.size = 0 :=
  c4_try_get_empty_rejects _ _ rfl

/-- C5: the capacity-taking constructor yields capacity `max c 1` for
every requested `c`; in particular a request of 0 is clamped to 1, the
queue starts empty, and construction is a total function (never fails). -/
theorem c5_mk_cap_clamps (α : Type) (c : Nat) :
    (thqueue.mk_cap c : thqueue α).capacity = max c 1 ∧
    (thqueue.mk_cap 0 : thqueue α).capacity = 1 ∧
    (thqueue.mk_cap c : thqueue α).m_queue = [] :=
  ⟨rfl, rfl, rfl⟩

/-- C6: `set_capacity q n` stores exactly `n` (no validation, no
clamping), leaves the items unchanged, and signals neither the not-empty
nor the not-full condition. -/
theorem c6_set_capacity_frame {α : Type} (q : thqueue α) (n : Nat) :
    thqueue.set_capacity q n =
      ({ m_capacity := n, m_queue := q.m_queue }, false, false) :=
  rfl

/-- C9: on a non-empty queue the pointer-output form and the return-value
form of `get` agree completely: same removed head, same resulting state,
same notifications. -/
theorem c9_get_forms_equivalent {α : Type} (q : thqueue α) (slot : α)
    (h : q.m_queue ≠ []) :
    thqueue.get_ptr q slot = thqueue.get q := by
  obtain ⟨cap, items⟩ := q
  cases items with
  | nil => exact absurd rfl h
  | cons v rest => rfl

/-- C9 witness at a concrete non-empty queue. -/
theorem c9_get_forms_equivalent_witness :
    thqueue.get_ptr (⟨2, [3, 4]⟩ : thqueue Nat) 0 =
      thqueue.get (⟨2, [3, 4]⟩ : thqueue Nat) :=
  c9_get_forms_equivalent _ _ (by decide)

/-- C10: after `set_capacity 0`, `try_put` returns `false` for every
value and every state, the empty queue included, since the size is always
at least 0. -/
theorem c10_try_put_zero_capacity {α : Type} (q : thqueue α) (v : α) :
    (thqueue.try_put (thqueue.set_capacity q 0).1 v).1 = false := by
  simp [thqueue.set_capacity, thqueue.try_put]

/-! Helper lemmas about single steps, shared by the invariant claims. -/

/-- One step only changes the capacity field through `opSetCap`. -/
theorem applyOp_m_capacity {α : Type} (q : thqueue α) (op : thqueue.Op α) :
    (thqueue.applyOp q op).m_capacity =
      (match op with
       | thqueue.Op.opSetCap n => n
       | _ => q.m_capacity) := by
  obtain ⟨cap, items⟩ := q
  cases op with
  | opPut v =>
    by_cases hc : items.length ≥ cap
    · simp [thqueue.applyOp, thqueue.put, hc]
    · simp [thqueue.applyOp, thqueue.put, hc]
  | opTryPut v =>
    by_cases hc : items.length ≥ cap
    · simp [thqueue.applyOp, thqueue.try_put, hc]
    · simp [thqueue.applyOp, thqueue.try_put, hc]
  | opGetRet => cases items <;> simp [thqueue.applyOp, thqueue.get]
  | opGetPtr s => cases items <;> simp [thqueue.applyOp, thqueue.get_ptr]
  | opTryGet s => cases items <;> simp [thqueue.applyOp, thqueue.try_get]
  | opSetCap n => simp [thqueue.applyOp, thqueue.set_capacity]

/-- One step preserves `size ≤ capacity`, provided a capacity change
requests at least the current size. -/
theorem applyOp_size_le {α : Type} (q : thqueue α) (op : thqueue.Op α)
    (h : q.m_queue.length ≤ q.m_capacity)
    (hsafe : match op with
             | thqueue.Op.opSetCap n => q.m_queue.length ≤ n
             | _ => True) :
    (thqueue.applyOp q op).m_queue.length ≤ (thqueue.applyOp q op).m_capacity := by
  obtain ⟨cap, items⟩ := q
  simp only at h
  cases op with
  | opPut v =>
    by_cases hc : items.length ≥ cap
    · simpa [thqueue.applyOp, thqueue.put, hc] using h
    · simp only [thqueue.applyOp, thqueue.put] at *
      simp [hc]
      omega
  | opTryPut v =>
    by_cases hc : items.length ≥ cap
    · simpa [thqueue.applyOp, thqueue.try_put, hc] using h
    · simp only [thqueue.applyOp, thqueue.try_put] at *
      simp [hc]
      omega
  | opGetRet =>
    cases items with
    | nil => simp [thqueue.applyOp, thqueue.get]
    | cons a rest =>
      simp only [thqueue.applyOp, thqueue.get]
      simp only [List.length_cons] at h
      omega
  | opGetPtr s =>
    cases items with
    | nil => simp [thqueue.applyOp, thqueue.get_ptr]
    | cons a rest =>
      simp only [thqueue.applyOp, thqueue.get_ptr]
      simp only [List.length_cons] at h
      omega
  | opTryGet s =>
    cases items with
    | nil => simp [thqueue.applyOp, thqueue.try_get]
    | cons a rest =>
      simp only [thqueue.applyOp, thqueue.try_get]
      simp only [List.length_cons] at h
      omega
  | opSetCap n =>
    simpa [thqueue.applyOp, thqueue.set_capacity] using hsafe

/-- The invariant `size ≤ capacity` is preserved along any trace whose
capacity changes are size-safe. -/
theorem run_size_le {α : Type} (q : thqueue α) (ops : List (thqueue.Op α))
    (h : q.m_queue.length ≤ q.m_capacity)
    (hs : thqueue.sizeSafe q ops = true) :
    (thqueue.run q ops).m_queue.length ≤ (thqueue.run q ops).m_capacity := by
  induction ops generalizing q with
  | nil => exact h
  | cons op ops ih =>
    simp only [thqueue.sizeSafe, Bool.and_eq_true] at hs
    refine ih _ (applyOp_size_le q op h ?_) hs.2
    cases op with
    | opSetCap n => exact of_decide_eq_true hs.1
    | opPut v => trivial
    | opTryPut v => trivial
    | opGetRet => trivial
    | opGetPtr s => trivial
    | opTryGet s => trivial

/-- The invariant `1 ≤ capacity` is preserved along any trace whose
capacity changes request at least 1. -/
theorem run_capacity_ge_one {α : Type} (q : thqueue α) (ops : List (thqueue.Op α))
    (h : 1 ≤ q.m_capacity) (hc : thqueue.capSafe ops = true) :
    1 ≤ (thqueue.run q ops).m_capacity := by
  induction ops generalizing q with
  | nil => exact h
  | cons op ops ih =>
    simp only [thqueue.capSafe, Bool.and_eq_true] at hc
    refine ih _ ?_ hc.2
    rw [applyOp_m_capacity q op]
    cases op with
    | opSetCap n => exact of_decide_eq_true hc.1
    | opPut v => exact h
    | opTryPut v => exact h
    | opGetRet => exact h
    | opGetPtr s => exact h
    | opTryGet s => exact h

/-- C1 counterexample: the claim as stated is false.  From a queue
constructed with capacity 2, the operation sequence
`put 10; put 11; setCapacity 1` reaches a state with `size = 2` but
`capacity = 1`, so `getSize() ≤ getCapacity()` fails. -/
theorem c1_capacity_bound_cex :
    ¬ ((thqueue.run (thqueue.mk_cap 2 : thqueue Nat)
          [.opPut 10, .opPut 11, .opSetCap 1]).size ≤
       (thqueue.run (thqueue.mk_cap 2 : thqueue Nat)
          [.opPut 10, .opPut 11, .opSetCap 1]).capacity) := by
  decide

/-- C1 amended: for every state reachable from a constructor, `0 ≤ getSize()`
always holds, and `getSize() ≤ getCapacity()` holds provided every
`setCapacity` call in the trace requests a capacity at least as large as
the queue's size at the moment of the call. -/
theorem c1_capacity_bound_amended {α : Type} (q : thqueue α)
    (ops : List (thqueue.Op α)) (hq : thqueue.fromCtor q)
    (hs : thqueue.sizeSafe q ops = true) :
    0 ≤ (thqueue.run q ops).size ∧
    (thqueue.run q ops).size ≤ (thqueue.run q ops).capacity := by
  refine ⟨Nat.zero_le _, ?_⟩
  have h0 : q.m_queue.length ≤ q.m_capacity := by
    rcases hq with h | ⟨c, h⟩ <;> subst h <;>
      simp [thqueue.mk_default, thqueue.mk_cap]
  simpa [thqueue.size, thqueue.capacity] using run_size_le q ops h0 hs

/-- C1 witness: the amended bound at a concrete constructor state and
size-safe trace. -/
theorem c1_capacity_bound_amended_witness :
    0 ≤ (thqueue.run (thqueue.mk_cap 2 : thqueue Nat)
          [.opTryPut 7, .opSetCap 3]).size ∧
    (thqueue.run (thqueue.mk_cap 2 : thqueue Nat)
          [.opTryPut 7, .opSetCap 3]).size ≤
    (thqueue.run (thqueue.mk_cap 2 : thqueue Nat)
          [.opTryPut 7, .opSetCap 3]).capacity :=
  c1_capacity_bound_amended _ _ (Or.inr ⟨2, rfl⟩) (by decide)

/-- C7 counterexample: the claim as stated is false.  From a queue
constructed with capacity 1, calling `setCapacity 0` reaches a state
between operations whose capacity is 0, violating `1 ≤ capacity`. -/
theorem c7_capacity_ge_one_cex :
    ¬ (1 ≤ (thqueue.run (thqueue.mk_cap 1 : thqueue Nat)
              [.opSetCap 0]).capacity) := by
  decide

/-- C7 amended: `1 ≤ capacity` holds in every state reachable from a
constructor provided every `setCapacity` call in the trace requests a
capacity of at least 1. -/
theorem c7_capacity_ge_one_amended {α : Type} (q : thqueue α)
    (ops : List (thqueue.Op α)) (hq : thqueue.fromCtor q)
    (hc : thqueue.capSafe ops = true) :
    1 ≤ (thqueue.run q ops).capacity := by
  have h0 : 1 ≤ q.m_capacity := by
    rcases hq with h | ⟨c, h⟩ <;> subst h
    · show 1 ≤ thqueue.MAX_CAPACITY
      norm_num [thqueue.MAX_CAPACITY, W]
    · show 1 ≤ max c 1
      omega
  simpa [thqueue.capacity] using run_capacity_ge_one q ops h0 hc

/-- C7 witness: the amended invariant at a concrete constructor state
and capacity-safe trace. -/
theorem c7_capacity_ge_one_amended_witness :
    1 ≤ (thqueue.run (thqueue.mk_cap 1 : thqueue Nat)
           [.opTryPut 4, .opSetCap 5]).capacity :=
  c7_capacity_ge_one_amended _ _ (Or.inr ⟨1, rfl⟩) (by decide)

/-- C8: from any queue of size 3, `setCapacity 1` evicts nothing (the
items and the size 3 are unchanged), and `try_put` returns `false` both
before any `get` and after one `get`, i.e. until at least two `get`
calls have removed items. -/
theorem c8_lower_capacity_no_evict {α : Type} (q : thqueue α) (v w : α)
    (h : q.size = 3) :
    (thqueue.run q [.opSetCap 1]).m_queue = q.m_queue ∧
    (thqueue.run q [.opSetCap 1]).size = 3 ∧
    (thqueue.try_put (thqueue.run q [.opSetCap 1]) v).1 = false ∧
    (thqueue.try_put (thqueue.run q [.opSetCap 1, .opGetRet]) w).1 = false := by
  obtain ⟨cap, items⟩ := q
  simp only [thqueue.size] at h
  rw [List.length_eq_three] at h
  obtain ⟨a, b, c, rfl⟩ := h
  refine ⟨rfl, rfl, ?_, ?_⟩
  · simp [thqueue.run, thqueue.applyOp, thqueue.set_capacity, thqueue.try_put]
  · simp [thqueue.run, thqueue.applyOp, thqueue.set_capacity, thqueue.get,
      thqueue.try_put]

/-- C8 witness at a concrete queue holding three items. -/
theorem c8_lower_capacity_no_evict_witness :
    (thqueue.run (⟨5, [1, 2, 3]⟩ : thqueue Nat) [.opSetCap 1]).m_queue =
      (⟨5, [1, 2, 3]⟩ : thqueue Nat).m_queue ∧
    (thqueue.run (⟨5, [1, 2, 3]⟩ : thqueue Nat) [.opSetCap 1]).size = 3 ∧
    (thqueue.try_put (thqueue.run (⟨5, [1, 2, 3]⟩ : thqueue Nat)
        [.opSetCap 1]) 9).1 = false ∧
    (thqueue.try_put (thqueue.run (⟨5, [1, 2, 3]⟩ : thqueue Nat)
        [.opSetCap 1, .opGetRet]) 8).1 = false :=
  c8_lower_capacity_no_evict _ 9 8 (by decide)
